import Mathlib

/-
Verification development for the AzoraMoon chapter-extraction service.

Each Python source file is embedded as a Lean namespace:
  ChapterScraper    — chapter_scraper.py
  Scraper           — scraper.py
  PlaywrightWorker  — playwright_worker.py
  ChapterExtractor  — chapter_extractor.py
  Utils             — utils.py

External effects (HTTP responses, the headless browser session, HTML
parsing by BeautifulSoup) are supplied as explicit environment values;
everything the Python functions compute from those inputs is translated
directly.  Python floats produced by float(...) on the matched decimal
tokens are modelled by Rat; Python `in` on strings is substring
containment; str.lower and str.strip are modelled for ASCII data (all
fragment lists in the source are ASCII).  String primitives are
implemented here over List Char so that every definition evaluates by
kernel reduction.
-/

set_option autoImplicit false

/-- Boolean list-prefix test. -/
def listPrefixB : List Char → List Char → Bool
  | [], _ => true
  | _ :: _, [] => false
  | p :: ps, c :: cs => p = c && listPrefixB ps cs

/-- Boolean list-infix test. -/
def listInfixB (needle : List Char) : List Char → Bool
  | [] => needle.isEmpty
  | c :: cs => listPrefixB needle (c :: cs) || listInfixB needle cs

/-- Python `sub in s` (substring containment) on strings. -/
def strContains (s sub : String) : Bool :=
  listInfixB sub.data s.data

/-- Python `s.startswith(p)`. -/
def strStartsWith (s p : String) : Bool :=
  listPrefixB p.data s.data

/-- Python `s.endswith(p)`. -/
def strEndsWith (s p : String) : Bool :=
  listPrefixB p.data.reverse s.data.reverse

/-- Python `s.endswith(tuple)`: true iff some listed suffix ends `s`. -/
def endsWithAny (s : String) (suffixes : List String) : Bool :=
  suffixes.any (fun e => strEndsWith s e)

/-- Python `str.lower` (ASCII letters; all data compared in the source
is ASCII). -/
def strLower (s : String) : String :=
  String.mk (s.data.map Char.toLower)

/-- The character class of Python `str.strip()` / `\s` (ASCII scope). -/
def pyIsSpace (c : Char) : Bool :=
  c = ' ' || c = '\t' || c = '\n' || c = '\r' || c = '\x0b' || c = '\x0c'

/-- Python `s.strip()` (ASCII whitespace). -/
def strStrip (s : String) : String :=
  String.mk (((s.data.dropWhile pyIsSpace).reverse.dropWhile pyIsSpace).reverse)

/-- Python `s.rstrip("/")`: drop all trailing slashes. -/
def rstripSlash (s : String) : String :=
  String.mk ((s.data.reverse.dropWhile (fun c => c = '/')).reverse)

/-- Python single-character `s.replace(old, new)` (both replacements in
the source replace one character by one character). -/
def charReplace (s : String) (old new : Char) : String :=
  String.mk (s.data.map (fun c => if c = old then new else c))

/-- Worker for `splitOnChar`, accumulating the current segment reversed. -/
def splitOnCharGo (sep : Char) : List Char → List Char → List (List Char)
  | [], acc => [acc.reverse]
  | c :: cs, acc =>
    if c = sep then acc.reverse :: splitOnCharGo sep cs []
    else splitOnCharGo sep cs (c :: acc)

/-- Python `s.split(sep)` for a one-character separator: yields the
segments between separators, keeping empty segments. -/
def splitOnChar (sep : Char) (s : String) : List String :=
  (splitOnCharGo sep s.data []).map String.mk

/-- An `img` element as the scanners see it: the two attributes the code
reads (`src`, `data-src`); `none` models an absent attribute. -/
structure Img where
  src : Option String
  data_src : Option String
deriving Repr, DecidableEq

namespace Urllib

/-- Split a URL at the first occurrence of "://": returns
(scheme chars, remainder) when present.  Models the scheme split of
`urllib.parse.urlparse` for http(s)-style absolute URLs. -/
def break3 : List Char → Option (List Char × List Char)
  | [] => none
  | ':' :: '/' :: '/' :: rest => some ([], rest)
  | c :: rest =>
    match break3 rest with
    | some (a, b) => some (c :: a, b)
    | none => none

/-- `urlparse(url).scheme` (urlparse lowercases the scheme). -/
def scheme (url : String) : String :=
  match break3 url.data with
  | some (s, _) => strLower (String.mk s)
  | none => ""

/-- `urlparse(url).netloc`: after "://", up to the first of '/', '?', '#'. -/
def netloc (url : String) : String :=
  match break3 url.data with
  | some (_, rest) => String.mk (rest.takeWhile (fun c => c ≠ '/' && c ≠ '?' && c ≠ '#'))
  | none => ""

/-- `urlparse(url).path`: the path component, query and fragment
stripped.  Modelled for URLs without the params (';') component. -/
def path (url : String) : String :=
  match break3 url.data with
  | some (_, rest) =>
    let p := rest.dropWhile (fun c => c ≠ '/' && c ≠ '?' && c ≠ '#')
    String.mk (p.takeWhile (fun c => c ≠ '?' && c ≠ '#'))
  | none => String.mk (url.data.takeWhile (fun c => c ≠ '?' && c ≠ '#'))

end Urllib

namespace ChapterScraper

/-- chapter_scraper.py lines 49-56: the loop of `dedupe_preserve_order`,
the `seen` set modelled as the list of values already emitted. -/
def dedupeGo (seen : List String) : List String → List String
  | [] => []
  | x :: xs => if seen.contains x then dedupeGo seen xs else x :: dedupeGo (x :: seen) xs

/-- chapter_scraper.py `dedupe_preserve_order`: keep the first occurrence
of every string, in order.  Also models Python `list(dict.fromkeys(l))`
used by the other modules, which has the same semantics. -/
def dedupe_preserve_order (items : List String) : List String :=
  dedupeGo [] items

/-- The separator class `[\s\-_\/:]` of the first chapter regex
(`\s` taken as the ASCII whitespace characters). -/
def isSepChar (c : Char) : Bool :=
  pyIsSpace c || c = '-' || c = '_' || c = '/' || c = ':'

/-- Greedy match of `[0-9]+(?:\.[0-9]+)?` at the head of `cs`: the
matched number token, or `none` when no digit starts here. -/
def matchNumberAt (cs : List Char) : Option (List Char) :=
  let p := cs.span Char.isDigit
  if p.1.isEmpty then none
  else
    match p.2 with
    | '.' :: rest2 =>
      let q := rest2.span Char.isDigit
      if q.1.isEmpty then some p.1 else some (p.1 ++ '.' :: q.1)
    | _ => some p.1

/-- Case-insensitive literal prefix match: `pat` is given in lowercase;
returns the remainder of `cs` on success. -/
def stripPrefixCI : List Char → List Char → Option (List Char)
  | [], cs => some cs
  | _ :: _, [] => none
  | p :: ps, c :: cs => if c.toLower = p then stripPrefixCI ps cs else none

/-- `re.search` of chapter_scraper.py's first pattern
`chapter[\s\-_\/:]*([0-9]+(?:\.[0-9]+)?)` (re.I): leftmost occurrence of
the literal "chapter" that is followed, after any run of separators, by a
number token; the result is the captured number token. -/
def searchP1 : List Char → Option (List Char)
  | [] => none
  | c :: cs =>
    match stripPrefixCI ['c', 'h', 'a', 'p', 't', 'e', 'r'] (c :: cs) with
    | some rest =>
      match matchNumberAt (rest.dropWhile isSepChar) with
      | some num => some num
      | none => searchP1 cs
    | none => searchP1 cs

/-- `re.search` of the fallback pattern `(^|\D)(\d+(?:\.\d+)?)(?:$|\D)`:
its leftmost match captures the first maximal digit run of the string,
with an optional `.digits` fraction. -/
def searchP2 (cs : List Char) : Option (List Char) :=
  matchNumberAt (cs.dropWhile (fun c => !c.isDigit))

/-- Value of a digit run. -/
def digitsToNat (ds : List Char) : Nat :=
  ds.foldl (fun n c => n * 10 + (c.toNat - 48)) 0

/-- Python `float(g)` on a token matched by the patterns above
(`digits` or `digits.digits`), modelled exactly by a rational. -/
def parseFloatToken (num : List Char) : ℚ :=
  let p := num.span Char.isDigit
  match p.2 with
  | [] => (digitsToNat p.1 : ℚ)
  | _ :: fs => (digitsToNat p.1 : ℚ) + (digitsToNat fs : ℚ) / (10 ^ fs.length)

/-- chapter_scraper.py lines 18-31: `try_find` — the two patterns of
`CHAPTER_RE_LIST` in order; the captured number group of the first match
is parsed as a float (the parse never fails on these tokens). -/
def try_find (s : String) : Option ℚ :=
  if s = "" then none
  else
    match searchP1 s.data with
    | some num => some (parseFloatToken num)
    | none =>
      match searchP2 s.data with
      | some num => some (parseFloatToken num)
      | none => none

/-- chapter_scraper.py lines 13-47: `parse_chapter_number(title, url)` —
try the patterns on the title, then on `urlparse(url).path`. -/
def parse_chapter_number (title url : Option String) : Option ℚ :=
  match try_find (title.getD "") with
  | some n => some n
  | none =>
    match url with
    | none => none
    | some u => if u = "" then none else try_find (Urllib.path u)

/-- chapter_scraper.py lines 58-68: `is_valid_image_url`. -/
def is_valid_image_url (u : String) : Bool :=
  if u = "" then false
  else
    let low := strLower u
    if [".jpg", ".jpeg", ".png", ".webp", ".gif"].any (fun ext => strContains low ext) then true
    else if strContains low "storage.azoramoon.com" || strContains low "wp-manga" ||
            strContains low "manga" then true
    else false

/-- The dict returned by `scraper.extract_images` as the orchestrator
reads it (line 96 consults only the "images" key): `none` models a dict
without that key (the error dict). -/
structure FastOutcome where
  images : Option (List String)
deriving Repr, DecidableEq

/-- The dict returned by `scrape_chapter_with_playwright` as the
orchestrator reads it (lines 113 and 122): `none` models a missing key. -/
structure PwOutcome where
  images : Option (List String)
  sources : Option (List String)
deriving Repr, DecidableEq

/-- Outcome of the two strategy calls made by `extract_chapter_content`:
`Except.error e` models the call raising an exception whose string
rendering is `e`. -/
structure Env where
  fast : Except String FastOutcome
  pw : Except String PwOutcome

/-- The result dict built by `extract_chapter_content` (line 90). -/
structure ChapterResult where
  url : String
  title : Option String
  number : Option ℚ
  images : List String
  count : Nat
  sources : List String
  note : Option String
deriving Repr, DecidableEq

/-- chapter_scraper.py line 90: the initial result dict. -/
def init_result (url : String) : ChapterResult :=
  { url := url, title := none, number := none, images := [], count := 0,
    sources := [], note := none }

/-- chapter_scraper.py lines 92-105: the fast static pass — filter the
scraper's candidates through `is_valid_image_url`, dedupe, and record
them with source "dom_img" when non-empty; a raised exception is
swallowed into the note. -/
def fast_pass (url : String) (fast : Except String FastOutcome) : ChapterResult :=
  let result := init_result url
  match fast with
  | .error e => { result with note := some ("fast_scrape_error: " ++ e) }
  | .ok f =>
    match f.images with
    | none => result
    | some imgs =>
      if imgs.isEmpty then result
      else
        let images := dedupe_preserve_order (imgs.filter is_valid_image_url)
        if images.isEmpty then result
        else { result with
                 images := images
                 count := images.length
                 sources := result.sources ++ ["dom_img"] }

/-- chapter_scraper.py lines 122-124: merge the worker's sources into the
result's sources, appending only names not already present. -/
def merge_sources (cur : List String) (pws : List String) : List String :=
  pws.foldl (fun acc s => if acc.contains s then acc else acc ++ [s]) cur

/-- chapter_scraper.py lines 109-128: the playwright fallback — filter
the worker's images, append the new unique ones after the existing ones,
dedupe, and merge sources; a raised exception is appended to the note. -/
def pw_merge (r : ChapterResult) (pw : Except String PwOutcome) : ChapterResult :=
  match pw with
  | .error e =>
    let prev := r.note.getD ""
    { r with note := some ((if prev ≠ "" then prev ++ " | " else "") ++ ("playwright_error: " ++ e)) }
  | .ok pw =>
    let pw_images := (pw.images.getD []).filter is_valid_image_url
    let combined := r.images ++ pw_images.filter (fun i => !(r.images.contains i))
    let combined := dedupe_preserve_order combined
    if combined.isEmpty then r
    else { r with
             images := combined
             count := combined.length
             sources := merge_sources r.sources (pw.sources.getD ["playwright"]) }

/-- chapter_scraper.py line 137: `url.rstrip("/").split("/")[-1]`. -/
def last_path_segment (url : String) : String :=
  (splitOnChar '/' (rstripSlash url)).getLastD ""

/-- chapter_scraper.py lines 133-142: the title guess — the last path
segment with '-' and '_' replaced by spaces, `none` when the segment is
empty. -/
def title_from_url (url : String) : Option String :=
  let path := last_path_segment url
  if path = "" then none
  else some (charReplace (charReplace path '-' ' ') '_' ' ')

/-- chapter_scraper.py lines 130-155: the closing steps of
`extract_chapter_content` — set title and number, re-dedupe the images,
recompute the count, and set the default note when nothing was found and
no note was recorded (Python `not result.get("note")` is true for a
missing note and for an empty one alike). -/
def finalize (url : String) (r2 : ChapterResult) : ChapterResult :=
  let t := title_from_url url
  let r3 := { r2 with title := t, number := parse_chapter_number t (some url) }
  let images := dedupe_preserve_order r3.images
  let r4 := { r3 with images := images, count := images.length }
  if r4.count = 0 ∧ (r4.note.getD "") = "" then
    { r4 with note := some "No images found (page might require additional JS interactions or be protected)." }
  else r4

/-- chapter_scraper.py lines 70-155: `extract_chapter_content`.  Returns
the result dict plus an instrumentation flag telling whether the
playwright worker was invoked (the call at line 110, guarded by line
108).  The `cf`, `ua`, `headless` and `wait_after` parameters of the
source only parameterize the two strategy calls, whose outcomes `env`
already fixes, so they are omitted here. -/
def extract_chapter_content (url : String) (prefer_playwright : Bool) (env : Env) :
    ChapterResult × Bool :=
  let r1 := fast_pass url env.fast
  let invoked := r1.images.isEmpty || prefer_playwright
  (finalize url (if invoked then pw_merge r1 env.pw else r1), invoked)

end ChapterScraper

namespace Scraper

/-- scraper.py line 7. -/
def BASE_HOST : String := "https://azoramoon.com"

/-- scraper.py lines 87-102: `_is_ui_or_icon` — the deny fragments. -/
def ui_bad_fragments : List String :=
  ["_next/static", "default-avatar", "like.", "love.", "laugh.", "wow.",
   "cry.", "angry.", "emoji", "icon", "reaction"]

/-- scraper.py `_is_ui_or_icon`. -/
def is_ui_or_icon (url : String) : Bool :=
  ui_bad_fragments.any (fun x => strContains (strLower url) x)

/-- scraper.py lines 105-111: `_looks_like_chapter_image` — an allow
fragment must be present and the URL must end with an image extension. -/
def looks_like_chapter_image (url : String) : Bool :=
  let u := strLower url
  (strContains u "storage.azoramoon.com" || strContains u "/upload/" ||
   strContains u "chapter_") &&
  endsWithAny u [".jpg", ".jpeg", ".png", ".webp"]

/-- scraper.py line 119: `img.get("src") or img.get("data-src") or ""` —
the eager attribute is consulted first, the lazy-load attribute is only a
fallback (Python `or` treats a missing attribute and an empty string
alike). -/
def attr_of_img (img : Img) : String :=
  let s := img.src.getD ""
  if s ≠ "" then s else img.data_src.getD ""

/-- scraper.py lines 124-128: URL normalization of one candidate.  The
root-relative case uses the constant `BASE_HOST`, not the scanned
document's own host (the function has no access to the document URL). -/
def normalize_src (src : String) : String :=
  if strStartsWith src "//" then "https:" ++ src
  else if strStartsWith src "/" then BASE_HOST ++ src
  else src

/-- scraper.py lines 114-137: `extract_images_from_html`, from the list
of parsed `img` elements onward (BeautifulSoup's parse of the HTML text
is the external input). -/
def extract_images_from_html (imgs : List Img) : List String :=
  let step := fun (acc : List String) (img : Img) =>
    let src := strStrip (attr_of_img img)
    if src = "" then acc
    else
      let src := normalize_src src
      if is_ui_or_icon src then acc
      else if looks_like_chapter_image src then acc ++ [src]
      else acc
  ChapterScraper.dedupe_preserve_order (imgs.foldl step [])

/-- An HTTP response as httpx delivers it (status plus decoded text). -/
structure HttpResponse where
  status : Nat
  body : String
deriving Repr, DecidableEq

/-- scraper.py lines 68-80: the classified failure value of `fetch_html`. -/
inductive FetchResult where
  | ok (html : String)
  | badStatus (code : Nat) (snippet : String)
  | requestError (detail : String)
deriving Repr, DecidableEq

/-- scraper.py lines 41-80: `fetch_html` — one HTTP GET per call (the
single `client.get` at line 60), classified by status; the second
component counts the network fetches the call performs, which is always
one.  `resp` is the network's answer: `Except.error` models a raised
request error. -/
def fetch_html (resp : Except String HttpResponse) : FetchResult × Nat :=
  (match resp with
   | .error e => .requestError e
   | .ok r => if r.status ≠ 200 then .badStatus r.status (String.mk (r.body.data.take 1500))
              else .ok r.body, 1)

/-- The dict returned by `extract_images` on fetch success. -/
structure ExtractImagesSuccess where
  url : String
  images : List String
  count : Nat
deriving Repr, DecidableEq

/-- scraper.py lines 197-208: success dict or the fetch_failed error
dict. -/
inductive ExtractImagesResult where
  | success (r : ExtractImagesSuccess)
  | fetchFailed (debug : FetchResult)
deriving Repr, DecidableEq

/-- scraper.py lines 144-208: `extract_images` — fetch the document,
scan it, and report the images with their count.  `parse` is
BeautifulSoup's `img`-element list for a given HTML text.  The header and
cookie assembly of lines 167-196 only shapes the outbound request (they
carry `ua` and `cf_clearance` to the site) and no caching layer exists in
this path, so each call performs the fetch of `fetch_html` afresh; the
second component counts those network fetches. -/
def extract_images (url : String) (resp : Except String HttpResponse)
    (parse : String → List Img) : ExtractImagesResult × Nat :=
  match fetch_html resp with
  | (.ok html, n) =>
    let images := extract_images_from_html (parse html)
    (.success { url := url, images := images, count := images.length }, n)
  | (other, n) => (.fetchFailed other, n)

end Scraper

namespace PlaywrightWorker

/-- A parsed JSON document (the result of `json.loads` /
`res.json()`). -/
inductive Json where
  | str (s : String)
  | num (n : Int)
  | bool (b : Bool)
  | null
  | arr (items : List Json)
  | obj (fields : List (String × Json))
deriving Repr

mutual

/-- playwright_worker.py lines 7-17: `deep_search_for_images` — collect,
in traversal order, every string that starts with "http" and ends with a
recognized image extension. -/
def deep_search_for_images : Json → List String
  | .str u =>
    if strStartsWith u "http" &&
       endsWithAny (strLower u) [".jpg", ".jpeg", ".png", ".webp"] then [u] else []
  | .num _ => []
  | .bool _ => []
  | .null => []
  | .arr items => deepSearchList items
  | .obj fields => deepSearchFields fields

/-- Traversal of a JSON array, left to right. -/
def deepSearchList : List Json → List String
  | [] => []
  | j :: js => deep_search_for_images j ++ deepSearchList js

/-- Traversal of a JSON object's fields in insertion order (the values
only; keys are never collected). -/
def deepSearchFields : List (String × Json) → List String
  | [] => []
  | kv :: kvs => deep_search_for_images kv.2 ++ deepSearchFields kvs

end

/-- playwright_worker.py lines 19-27: `normalize_url` — protocol-relative
candidates get "https:"; root-relative candidates are resolved against
the *document's own* scheme and host via `urlparse(base_url)`. -/
def normalize_url (u : String) (base_url : String) : String :=
  if u = "" then u
  else if strStartsWith u "//" then "https:" ++ u
  else if strStartsWith u "/" then
    Urllib.scheme base_url ++ "://" ++ Urllib.netloc base_url ++ u
  else u

/-- playwright_worker.py line 89 (the JS mapper
`e.getAttribute('src') || e.getAttribute('data-src') || ''`): the eager
attribute first, the lazy-load one as fallback. -/
def dom_attr (img : Img) : String :=
  let s := img.src.getD ""
  if s ≠ "" then s else img.data_src.getD ""

/-- playwright_worker.py line 34: the allow fragments. -/
def pwAllowed : List String :=
  ["wp-manga/data", "storage.azoramoon.com", "/upload/", "chapter_"]

/-- playwright_worker.py line 35: the deny fragments. -/
def pwBlocked : List String :=
  ["wsrv.nl", "/_next/static", "like.", "love.", "default-avatar", "icon",
   "emoji", "reaction"]

/-- playwright_worker.py lines 29-38: `_looks_like_chapter_image` — the
deny list is consulted first and rejects unconditionally; otherwise any
allow fragment accepts. -/
def looks_like_chapter_image (u : String) : Bool :=
  if u = "" then false
  else
    let low := strLower u
    if pwBlocked.any (fun b => strContains low b) then false
    else pwAllowed.any (fun a => strContains low a)

/-- Outcomes of the browser session's externally-visible steps, as
`scrape_chapter_with_playwright` observes them.  `Except.error e` models
the step raising an exception rendered as `e`. -/
structure PwEnv where
  /-- Launch, context and cookie setup, page creation and `goto`
  including the longer-timeout retry (lines 47-67): an error here reaches
  the outer handler before any image is collected. -/
  setup : Except String Unit
  /-- The DOM attribute strings from `eval_on_selector_all` (line 89). -/
  domAttrs : Except String (List String)
  /-- The `__NEXT_DATA__` element text (line 98): `none` when absent. -/
  nextDataText : Except String (Option String)
  /-- `json.loads` of that text (line 101): `none` models a parse
  failure. -/
  nextDataJson : Option Json
  /-- The buildId read back from `__NEXT_DATA__` (line 117). -/
  buildId : Except String (Option String)
  /-- The secondary `_next/data/...json` fetch (lines 122-124): `none`
  models a non-ok response or an unparsable body, both of which add
  nothing. -/
  nextJsonResp : Except String (Option Json)
  /-- `context.close()` / `browser.close()` (lines 148-149). -/
  closeStep : Except String Unit

/-- The dict built by `scrape_chapter_with_playwright` (line 45). -/
structure PwResults where
  url : String
  images : List String
  sources : List String
  count : Nat
  error : Option String
deriving Repr, DecidableEq

/-- playwright_worker.py lines 40-153: `scrape_chapter_with_playwright`.
Every exception that escapes the per-step handlers lands in the outer
`except` (line 150), which records it and returns the results collected
so far; the scroll simulation (lines 72-86) does not touch the results
dict and is not modelled. -/
def scrape_chapter_with_playwright (url : String) (env : PwEnv) : PwResults :=
  let results : PwResults := { url := url, images := [], sources := [], count := 0, error := none }
  match env.setup with
  | .error e => { results with error := some e }
  | .ok _ =>
    match env.domAttrs with
    | .error e => { results with error := some e }
    | .ok attrs =>
      let dom_imgs := (attrs.filter (fun s => s ≠ "")).map (fun s => normalize_url s url)
      let dom_imgs := ChapterScraper.dedupe_preserve_order dom_imgs
      let results :=
        if dom_imgs.isEmpty then results
        else { results with
                 images := results.images ++ dom_imgs
                 sources := results.sources ++ ["dom_img"] }
      let results :=
        match env.nextDataText with
        | .error _ => results
        | .ok none => results
        | .ok (some _) =>
          match env.nextDataJson with
          | none => results
          | some obj =>
            let found := deep_search_for_images obj
            let results := found.foldl (fun (r : PwResults) (f : String) =>
              let f := normalize_url f url
              if r.images.contains f then r else { r with images := r.images ++ [f] }) results
            if found.isEmpty then results
            else { results with sources := results.sources ++ ["next_data"] }
      let results :=
        match env.buildId with
        | .error _ => results
        | .ok none => results
        | .ok (some _) =>
          match env.nextJsonResp with
          | .error _ => results
          | .ok none => results
          | .ok (some j) =>
            let found2 := deep_search_for_images j
            let results := found2.foldl (fun (r : PwResults) (f : String) =>
              let f := normalize_url f url
              if r.images.contains f then r else { r with images := r.images ++ [f] }) results
            if found2.isEmpty then results
            else { results with sources := results.sources ++ ["next_json"] }
      let filtered := results.images.filter looks_like_chapter_image
      let filtered := ChapterScraper.dedupe_preserve_order filtered
      let results := { results with images := filtered, count := filtered.length }
      match env.closeStep with
      | .error e => { results with error := some e }
      | .ok _ => results

end PlaywrightWorker

namespace ChapterExtractor

/-- chapter_extractor.py line 32: `img.get("data-src") or img.get("src")
or ""` — here the lazy-load attribute is consulted first. -/
def attr_of_img (img : Img) : String :=
  let d := img.data_src.getD ""
  if d ≠ "" then d else img.src.getD ""

/-- chapter_extractor.py lines 28-40: `extract_wp_images`, from the
parsed `img` elements onward.  Only protocol-relative URLs are
normalized (there is no root-relative branch), and the "WP-manga/data"
membership test is case-sensitive. -/
def extract_wp_images (imgs : List Img) : List String :=
  let step := fun (acc : List String) (img : Img) =>
    let src := strStrip (attr_of_img img)
    if src = "" then acc
    else
      let src := if strStartsWith src "//" then "https:" ++ src else src
      if strContains src "WP-manga/data" then acc ++ [src] else acc
  ChapterScraper.dedupe_preserve_order (imgs.foldl step [])

end ChapterExtractor

namespace Utils

/-- A cached document: the fetch timestamp and the body (utils.py line
67). -/
structure CacheEntry where
  ts : Int
  html : String
deriving Repr, DecidableEq

/-- utils.py lines 17-25: `_make_cache_key` — the URL, extended by the
`cf_clearance` cookie value and the `User-Agent` header value when
present.  Cookie and header dicts are modelled as association lists
(first binding wins, as in dict lookup). -/
def make_cache_key (url : String) (cookies headers : List (String × String)) : String :=
  let key := url
  let key :=
    match cookies.lookup "cf_clearance" with
    | some v => key ++ "::cf=" ++ v
    | none => key
  match headers.lookup "User-Agent" with
  | some v => key ++ "::ua=" ++ v
  | none => key

/-- The process-wide `_CACHE` dict plus an instrumentation counter of
network fetches performed through `cached_fetch`. -/
structure FetchState where
  cache : List (String × CacheEntry)
  networkCalls : Nat
deriving Repr, DecidableEq

/-- utils.py lines 41-70: `cached_fetch` — serve from `_CACHE` when the
entry is younger than `ttl`, otherwise perform the GET, store the body
under the key with the current timestamp, and return it.  `now` is
`time.time()` and `body` is the text the network would return this call
(the HTTP-success path; `raise_for_status` failures propagate and store
nothing). -/
def cached_fetch (url : String) (ttl : Int) (headers cookies : List (String × String))
    (now : Int) (body : String) (st : FetchState) : String × FetchState :=
  let key := make_cache_key url cookies headers
  match st.cache.lookup key with
  | some entry =>
    if now - entry.ts < ttl then (entry.html, st)
    else (body, { cache := (key, { ts := now, html := body }) :: st.cache,
                  networkCalls := st.networkCalls + 1 })
  | none =>
    (body, { cache := (key, { ts := now, html := body }) :: st.cache,
             networkCalls := st.networkCalls + 1 })

end Utils

/-
Helper lemmas.
-/

theorem append_ne_empty_left (s t : String) (hs : s ≠ "") : s ++ t ≠ "" := by
  intro h
  apply hs
  have hd := congrArg String.data h
  rw [String.data_append] at hd
  rcases List.append_eq_nil.mp hd with ⟨h1, _⟩
  exact String.ext (h1.trans rfl)

theorem append_ne_empty_right (s t : String) (ht : t ≠ "") : s ++ t ≠ "" := by
  intro h
  apply ht
  have hd := congrArg String.data h
  rw [String.data_append] at hd
  rcases List.append_eq_nil.mp hd with ⟨_, h2⟩
  exact String.ext (h2.trans rfl)

namespace ChapterScraper

theorem mem_dedupeGo_not_seen :
    ∀ (l seen : List String) (x : String), x ∈ dedupeGo seen l → x ∉ seen := by
  intro l
  induction l with
  | nil => intro seen x h; simp [dedupeGo] at h
  | cons a as ih =>
    intro seen x h
    by_cases hc : seen.contains a = true
    · rw [dedupeGo, if_pos hc] at h
      exact ih seen x h
    · rw [dedupeGo, if_neg hc] at h
      rcases List.mem_cons.mp h with rfl | h2
      · intro hm
        exact hc (List.elem_iff.mpr hm)
      · have h3 := ih (a :: seen) x h2
        intro hm
        exact h3 (List.mem_cons_of_mem a hm)

theorem dedupeGo_nodup : ∀ (l seen : List String), (dedupeGo seen l).Nodup := by
  intro l
  induction l with
  | nil => intro seen; simp [dedupeGo]
  | cons a as ih =>
    intro seen
    by_cases hc : seen.contains a = true
    · rw [dedupeGo, if_pos hc]; exact ih seen
    · rw [dedupeGo, if_neg hc]
      refine List.nodup_cons.mpr ⟨?_, ih (a :: seen)⟩
      intro hmem
      exact mem_dedupeGo_not_seen as (a :: seen) a hmem (List.mem_cons_self a seen)

theorem dedupeGo_eq_self :
    ∀ (l seen : List String), l.Nodup → (∀ x ∈ l, x ∉ seen) → dedupeGo seen l = l := by
  intro l
  induction l with
  | nil => intro seen _ _; rfl
  | cons a as ih =>
    intro seen hnd hns
    have hca : ¬(seen.contains a = true) := by
      intro hc
      exact hns a (List.mem_cons_self a as) (List.elem_iff.mp hc)
    rw [dedupeGo, if_neg hca]
    congr 1
    apply ih (a :: seen) (List.nodup_cons.mp hnd).2
    intro x hx hmem
    rcases List.mem_cons.mp hmem with rfl | h2
    · exact (List.nodup_cons.mp hnd).1 hx
    · exact hns x (List.mem_cons_of_mem a hx) h2

theorem dedupe_nodup (l : List String) : (dedupe_preserve_order l).Nodup :=
  dedupeGo_nodup l []

theorem dedupe_eq_self {l : List String} (h : l.Nodup) : dedupe_preserve_order l = l :=
  dedupeGo_eq_self l [] h (by simp)

theorem dedupe_idem (l : List String) :
    dedupe_preserve_order (dedupe_preserve_order l) = dedupe_preserve_order l :=
  dedupe_eq_self (dedupe_nodup l)

theorem dedupeGo_append_of_nodup :
    ∀ (l1 : List String), l1.Nodup → ∀ (seen l2 : List String), (∀ x ∈ l1, x ∉ seen) →
      ∃ t, dedupeGo seen (l1 ++ l2) = l1 ++ t ∧ ∀ x ∈ t, x ∉ l1 ∧ x ∉ seen := by
  intro l1
  induction l1 with
  | nil =>
    intro _ seen l2 _
    refine ⟨dedupeGo seen l2, by simp, ?_⟩
    intro x hx
    exact ⟨by simp, mem_dedupeGo_not_seen l2 seen x hx⟩
  | cons a as ih =>
    intro hnd seen l2 hns
    have hca : ¬(seen.contains a = true) := by
      intro hc
      exact hns a (List.mem_cons_self a as) (List.elem_iff.mp hc)
    have hstep : dedupeGo seen ((a :: as) ++ l2) = a :: dedupeGo (a :: seen) (as ++ l2) := by
      rw [List.cons_append, dedupeGo, if_neg hca]
    have hseen2 : ∀ x ∈ as, x ∉ (a :: seen) := by
      intro x hx hmem
      rcases List.mem_cons.mp hmem with rfl | h2
      · exact (List.nodup_cons.mp hnd).1 hx
      · exact hns x (List.mem_cons_of_mem a hx) h2
    rcases ih (List.nodup_cons.mp hnd).2 (a :: seen) l2 hseen2 with ⟨t, ht, hmem⟩
    refine ⟨t, ?_, ?_⟩
    · rw [hstep, ht, List.cons_append]
    · intro x hx
      rcases hmem x hx with ⟨hx1, hx2⟩
      refine ⟨?_, fun h2 => hx2 (List.mem_cons_of_mem a h2)⟩
      intro hmem2
      rcases List.mem_cons.mp hmem2 with rfl | h2
      · exact hx2 (List.mem_cons_self x seen)
      · exact hx1 h2

theorem dedupe_append_of_nodup {l1 : List String} (h : l1.Nodup) (l2 : List String) :
    ∃ t, dedupe_preserve_order (l1 ++ l2) = l1 ++ t ∧ ∀ x ∈ t, x ∉ l1 := by
  rcases dedupeGo_append_of_nodup l1 h [] l2 (by simp) with ⟨t, ht, hmem⟩
  exact ⟨t, ht, fun x hx => (hmem x hx).1⟩

theorem fast_pass_images_nodup (url : String) (f : Except String FastOutcome) :
    (fast_pass url f).images.Nodup := by
  cases f with
  | error e => simp [fast_pass, init_result]
  | ok fo =>
    cases h : fo.images with
    | none => simp [fast_pass, init_result, h]
    | some imgs =>
      by_cases he : imgs.isEmpty = true
      · simp [fast_pass, init_result, h, he]
      · simp only [fast_pass, init_result, h, he, Bool.false_eq_true, if_false]
        split
        · simp
        · exact dedupe_nodup _

theorem fast_pass_error_images (url : String) (e : String) :
    (fast_pass url (.error e)).images = [] := rfl

theorem fast_pass_error_note (url : String) (e : String) :
    (fast_pass url (.error e)).note = some ("fast_scrape_error: " ++ e) := rfl

theorem fast_pass_ok_note (url : String) (fo : FastOutcome) :
    (fast_pass url (.ok fo)).note = none := by
  simp only [fast_pass, init_result]
  cases fo.images with
  | none => rfl
  | some imgs =>
    by_cases he : imgs.isEmpty = true
    · simp [he]
    · simp only [he, Bool.false_eq_true, if_false]
      split <;> rfl

theorem pw_merge_error (r : ChapterResult) (e : String) :
    pw_merge r (.error e) =
      { r with note := some ((if (r.note.getD "") ≠ "" then (r.note.getD "") ++ " | " else "") ++
        ("playwright_error: " ++ e)) } := rfl

theorem pw_merge_ok_note (r : ChapterResult) (pw : PwOutcome) :
    (pw_merge r (.ok pw)).note = r.note := by
  simp only [pw_merge]
  split <;> rfl

theorem pw_merge_error_images (r : ChapterResult) (e : String) :
    (pw_merge r (.error e)).images = r.images := rfl

theorem pw_merge_error_sources (r : ChapterResult) (e : String) :
    (pw_merge r (.error e)).sources = r.sources := rfl

theorem pw_merge_ok_images (r : ChapterResult) (pw : PwOutcome) :
    (pw_merge r (.ok pw)).images =
      (if (dedupe_preserve_order
            (r.images ++ ((pw.images.getD []).filter is_valid_image_url).filter
              (fun i => !(r.images.contains i)))).isEmpty then r.images
       else dedupe_preserve_order
            (r.images ++ ((pw.images.getD []).filter is_valid_image_url).filter
              (fun i => !(r.images.contains i)))) := by
  simp only [pw_merge]
  split <;> rfl

theorem finalize_images (url : String) (r : ChapterResult) :
    (finalize url r).images = dedupe_preserve_order r.images := by
  simp only [finalize]
  split <;> rfl

theorem finalize_count (url : String) (r : ChapterResult) :
    (finalize url r).count = (dedupe_preserve_order r.images).length := by
  simp only [finalize]
  split <;> rfl

theorem finalize_title (url : String) (r : ChapterResult) :
    (finalize url r).title = title_from_url url := by
  simp only [finalize]
  split <;> rfl

theorem finalize_sources (url : String) (r : ChapterResult) :
    (finalize url r).sources = r.sources := by
  simp only [finalize]
  split <;> rfl

theorem finalize_note (url : String) (r : ChapterResult) :
    (finalize url r).note =
      (if (dedupe_preserve_order r.images).length = 0 ∧ (r.note.getD "") = "" then
        some "No images found (page might require additional JS interactions or be protected)."
       else r.note) := by
  simp only [finalize]
  split <;> rfl

theorem ecc_fst (url : String) (pp : Bool) (env : Env) :
    (extract_chapter_content url pp env).1 =
      finalize url
        (if ((fast_pass url env.fast).images.isEmpty || pp) = true then
          pw_merge (fast_pass url env.fast) env.pw
         else fast_pass url env.fast) := rfl

theorem ecc_snd (url : String) (pp : Bool) (env : Env) :
    (extract_chapter_content url pp env).2 = ((fast_pass url env.fast).images.isEmpty || pp) := rfl

end ChapterScraper

/-
Claim theorems.
-/

/-- C1 (counterexample): the raw URL "https://wsrv.nl/?url=img.jpg"
contains the deny-list fragment "wsrv.nl" (the thumbnail-proxy host, first
entry of the worker's blocked list) together with the allow fragment
".jpg", yet `is_valid_image_url` — one of the two classification
functions named by the claim — returns true: it has no deny list, so a
deny fragment does not force rejection in that classifier. -/
theorem c1_counterexample :
    strContains (strLower "https://wsrv.nl/?url=img.jpg") "wsrv.nl" = true ∧
    PlaywrightWorker.pwBlocked.contains "wsrv.nl" = true ∧
    ChapterScraper.is_valid_image_url "https://wsrv.nl/?url=img.jpg" = true := by
  decide

/-- C1 (amended): the worker classifier `_looks_like_chapter_image` is
deny-first and authoritative — a URL containing any blocked fragment is
rejected regardless of allow fragments, and a URL with no blocked
fragment is accepted iff some allow fragment matches; the chapter_scraper
classifier `is_valid_image_url`, however, has no deny list: an image
extension such as ".jpg" accepts by itself, deny fragments
notwithstanding. -/
theorem c1_amended (u : String) :
    (PlaywrightWorker.pwBlocked.any (fun b => strContains (strLower u) b) = true →
      PlaywrightWorker.looks_like_chapter_image u = false) ∧
    (PlaywrightWorker.pwBlocked.any (fun b => strContains (strLower u) b) = false →
      (PlaywrightWorker.looks_like_chapter_image u = true ↔
        PlaywrightWorker.pwAllowed.any (fun a => strContains (strLower u) a) = true)) ∧
    (strContains (strLower u) ".jpg" = true → ChapterScraper.is_valid_image_url u = true) := by
  refine ⟨?_, ?_, ?_⟩
  · intro h
    simp [PlaywrightWorker.looks_like_chapter_image, h]
  · intro h
    by_cases hu : u = ""
    · subst hu; decide
    · simp [PlaywrightWorker.looks_like_chapter_image, hu, h]
  · intro h
    have hu : u ≠ "" := by
      intro hu
      subst hu
      exact absurd h (by decide)
    have hany : [".jpg", ".jpeg", ".png", ".webp", ".gif"].any
        (fun ext => strContains (strLower u) ext) = true := by
      rw [List.any_eq_true]
      exact ⟨".jpg", by simp, h⟩
    simp [ChapterScraper.is_valid_image_url, hu, hany]

/-- Witness for c1_amended: a URL with the deny fragment "wsrv.nl" is
rejected by the worker classifier; a clean storage URL is accepted iff an
allow fragment matches; the same deny-fragment URL is still accepted by
`is_valid_image_url`. -/
theorem c1_amended_witness :
    PlaywrightWorker.looks_like_chapter_image "https://wsrv.nl/upload/chapter_1/01.jpg" = false ∧
    (PlaywrightWorker.looks_like_chapter_image "https://storage.azoramoon.com/a/01.jpg" = true ↔
      PlaywrightWorker.pwAllowed.any
        (fun a => strContains (strLower "https://storage.azoramoon.com/a/01.jpg") a) = true) ∧
    ChapterScraper.is_valid_image_url "https://wsrv.nl/upload/chapter_1/01.jpg" = true :=
  ⟨(c1_amended "https://wsrv.nl/upload/chapter_1/01.jpg").1 (by decide),
   (c1_amended "https://storage.azoramoon.com/a/01.jpg").2.1 (by decide),
   (c1_amended "https://wsrv.nl/upload/chapter_1/01.jpg").2.2 (by decide)⟩

/-- C2: if the static pass yields at least one classified candidate and
prefer_playwright is false, `extract_chapter_content` does not invoke the
playwright worker and resolves with exactly the static pass's images and
sources. -/
theorem c2_static_short_circuit (url : String) (env : ChapterScraper.Env)
    (h : (ChapterScraper.fast_pass url env.fast).images ≠ []) :
    (ChapterScraper.extract_chapter_content url false env).2 = false ∧
    (ChapterScraper.extract_chapter_content url false env).1.images =
      (ChapterScraper.fast_pass url env.fast).images ∧
    (ChapterScraper.extract_chapter_content url false env).1.sources =
      (ChapterScraper.fast_pass url env.fast).sources := by
  have hie : (ChapterScraper.fast_pass url env.fast).images.isEmpty = false := by
    cases hx : (ChapterScraper.fast_pass url env.fast).images.isEmpty
    · rfl
    · exact absurd (List.isEmpty_iff.mp hx) h
  refine ⟨?_, ?_, ?_⟩
  · rw [ChapterScraper.ecc_snd, hie]
    rfl
  · rw [ChapterScraper.ecc_fst, hie, if_neg (by simp), ChapterScraper.finalize_images]
    exact ChapterScraper.dedupe_eq_self (ChapterScraper.fast_pass_images_nodup url env.fast)
  · rw [ChapterScraper.ecc_fst, hie, if_neg (by simp), ChapterScraper.finalize_sources]

/-- Witness for c2_static_short_circuit: a static pass that found one
classified candidate short-circuits; the worker outcome is an error that
is never consulted. -/
theorem c2_static_short_circuit_witness :
    (ChapterScraper.extract_chapter_content "https://azoramoon.com/series/x/chapter-3" false
      { fast := .ok { images := some ["https://storage.azoramoon.com/upload/chapter_3/01.jpg"] },
        pw := .error "browser crashed" }).2 = false ∧
    (ChapterScraper.extract_chapter_content "https://azoramoon.com/series/x/chapter-3" false
      { fast := .ok { images := some ["https://storage.azoramoon.com/upload/chapter_3/01.jpg"] },
        pw := .error "browser crashed" }).1.images =
      (ChapterScraper.fast_pass "https://azoramoon.com/series/x/chapter-3"
        (.ok { images := some ["https://storage.azoramoon.com/upload/chapter_3/01.jpg"] })).images ∧
    (ChapterScraper.extract_chapter_content "https://azoramoon.com/series/x/chapter-3" false
      { fast := .ok { images := some ["https://storage.azoramoon.com/upload/chapter_3/01.jpg"] },
        pw := .error "browser crashed" }).1.sources =
      (ChapterScraper.fast_pass "https://azoramoon.com/series/x/chapter-3"
        (.ok { images := some ["https://storage.azoramoon.com/upload/chapter_3/01.jpg"] })).sources :=
  c2_static_short_circuit "https://azoramoon.com/series/x/chapter-3"
    { fast := .ok { images := some ["https://storage.azoramoon.com/upload/chapter_3/01.jpg"] },
      pw := .error "browser crashed" } (by decide)

/-- C3: for every input, the result's images list has no duplicates, and
it is the static pass's images followed by a tail of browser-pass images
none of which was already present among the static results. -/
theorem c3_images_nodup_static_first (url : String) (pp : Bool) (env : ChapterScraper.Env) :
    (ChapterScraper.extract_chapter_content url pp env).1.images.Nodup ∧
    ∃ t, (ChapterScraper.extract_chapter_content url pp env).1.images =
        (ChapterScraper.fast_pass url env.fast).images ++ t ∧
      ∀ x ∈ t, x ∉ (ChapterScraper.fast_pass url env.fast).images := by
  have hnd := ChapterScraper.fast_pass_images_nodup url env.fast
  constructor
  · rw [ChapterScraper.ecc_fst, ChapterScraper.finalize_images]
    exact ChapterScraper.dedupe_nodup _
  · rw [ChapterScraper.ecc_fst, ChapterScraper.finalize_images]
    cases hinv : ((ChapterScraper.fast_pass url env.fast).images.isEmpty || pp) with
    | false =>
      rw [if_neg (by simp)]
      exact ⟨[], by rw [ChapterScraper.dedupe_eq_self hnd, List.append_nil], by simp⟩
    | true =>
      rw [if_pos rfl]
      cases hpw : env.pw with
      | error e =>
        rw [ChapterScraper.pw_merge_error_images]
        exact ⟨[], by rw [ChapterScraper.dedupe_eq_self hnd, List.append_nil], by simp⟩
      | ok pw =>
        rw [ChapterScraper.pw_merge_ok_images]
        by_cases hce : (ChapterScraper.dedupe_preserve_order
            ((ChapterScraper.fast_pass url env.fast).images ++
              ((pw.images.getD []).filter ChapterScraper.is_valid_image_url).filter
                (fun i => !((ChapterScraper.fast_pass url env.fast).images.contains i)))).isEmpty = true
        · rw [if_pos hce]
          exact ⟨[], by rw [ChapterScraper.dedupe_eq_self hnd, List.append_nil], by simp⟩
        · rw [if_neg hce, ChapterScraper.dedupe_idem]
          exact ChapterScraper.dedupe_append_of_nodup hnd _

theorem listPrefixB_of_two (c : Char) (l : List Char) (h : listPrefixB [c, c] l = true) :
    listPrefixB [c] l = true := by
  cases l with
  | nil => simp [listPrefixB] at h
  | cons a as =>
    simp [listPrefixB] at h ⊢
    exact h.1

namespace Utils

theorem make_cache_key_cf_inj (url : String) (cks cks2 hdrs : List (String × String))
    (v1 v2 : String) (h1 : cks.lookup "cf_clearance" = some v1)
    (h2 : cks2.lookup "cf_clearance" = some v2) (hne : v1 ≠ v2) :
    make_cache_key url cks hdrs ≠ make_cache_key url cks2 hdrs := by
  intro heq
  apply hne
  unfold make_cache_key at heq
  rw [h1, h2] at heq
  cases hua : hdrs.lookup "User-Agent" <;> rw [hua] at heq
  · have hd := congrArg String.data heq
    simp only [String.data_append, List.append_assoc] at hd
    have hd2 := List.append_cancel_left (List.append_cancel_left hd)
    exact String.ext hd2
  · have hd := congrArg String.data heq
    simp only [String.data_append, List.append_assoc] at hd
    have hd2 := List.append_cancel_left (List.append_cancel_left hd)
    exact String.ext (List.append_cancel_right hd2)

theorem make_cache_key_ua_inj (url : String) (cks hdrs hdrs2 : List (String × String))
    (u1 u2 : String) (h1 : hdrs.lookup "User-Agent" = some u1)
    (h2 : hdrs2.lookup "User-Agent" = some u2) (hne : u1 ≠ u2) :
    make_cache_key url cks hdrs ≠ make_cache_key url cks hdrs2 := by
  intro heq
  apply hne
  unfold make_cache_key at heq
  rw [h1, h2] at heq
  cases hcf : cks.lookup "cf_clearance" <;> rw [hcf] at heq
  · have hd := congrArg String.data heq
    simp only [String.data_append, List.append_assoc] at hd
    have hd2 := List.append_cancel_left (List.append_cancel_left hd)
    exact String.ext hd2
  · have hd := congrArg String.data heq
    simp only [String.data_append, List.append_assoc] at hd
    have hd2 := List.append_cancel_left (List.append_cancel_left
      (List.append_cancel_left (List.append_cancel_left hd)))
    exact String.ext hd2

end Utils

/-- C4 (counterexample): the pipeline's document fetch is
`scraper.extract_images` via `fetch_html`, which performs one network GET
on every call and consults no cache (`utils.cached_fetch` is called
nowhere in the pipeline).  Two calls with identical url and identical
session context (same response oracle, standing for the same auth cookie
and user-agent) therefore perform two network fetches, not one as the
claim states. -/
theorem c4_counterexample :
    (Scraper.extract_images "https://azoramoon.com/series/x/chapter-1"
      (.ok { status := 200, body := "<html></html>" }) (fun _ => [])).2 = 1 ∧
    (Scraper.extract_images "https://azoramoon.com/series/x/chapter-1"
      (.ok { status := 200, body := "<html></html>" }) (fun _ => [])).2 +
    (Scraper.extract_images "https://azoramoon.com/series/x/chapter-1"
      (.ok { status := 200, body := "<html></html>" }) (fun _ => [])).2 = 2 ∧
    (2 : Nat) ≠ 1 := by
  refine ⟨rfl, rfl, by decide⟩

/-- C4 (amended): `utils.cached_fetch` itself has the claimed property —
starting from an empty cache, the first call fetches once; a second call
with identical (url, cookies, headers) within the TTL is served from the
cache with no further fetch; and a second call differing only in the
`cf_clearance` cookie value or only in the `User-Agent` header value has
a different cache key and fetches afresh.  The extraction pipeline,
however, never calls `cached_fetch` (see the counterexample). -/
theorem c4_amended (url : String) (ttl : Int) (hdrs hdrs2 cks cks2 : List (String × String))
    (b1 b2 : String) (t1 t2 : Int) (hts : t2 - t1 < ttl) :
    ((Utils.cached_fetch url ttl hdrs cks t1 b1 { cache := [], networkCalls := 0 }).2.networkCalls = 1) ∧
    (Utils.cached_fetch url ttl hdrs cks t2 b2
        (Utils.cached_fetch url ttl hdrs cks t1 b1 { cache := [], networkCalls := 0 }).2 =
      (b1, (Utils.cached_fetch url ttl hdrs cks t1 b1 { cache := [], networkCalls := 0 }).2)) ∧
    (∀ v1 v2, v1 ≠ v2 → cks.lookup "cf_clearance" = some v1 →
      cks2.lookup "cf_clearance" = some v2 →
      (Utils.cached_fetch url ttl hdrs cks2 t2 b2
        (Utils.cached_fetch url ttl hdrs cks t1 b1 { cache := [], networkCalls := 0 }).2).2.networkCalls = 2) ∧
    (∀ u1 u2, u1 ≠ u2 → hdrs.lookup "User-Agent" = some u1 →
      hdrs2.lookup "User-Agent" = some u2 →
      (Utils.cached_fetch url ttl hdrs2 cks t2 b2
        (Utils.cached_fetch url ttl hdrs cks t1 b1 { cache := [], networkCalls := 0 }).2).2.networkCalls = 2) := by
  have hfirst : Utils.cached_fetch url ttl hdrs cks t1 b1 { cache := [], networkCalls := 0 } =
      (b1, { cache := [(Utils.make_cache_key url cks hdrs, { ts := t1, html := b1 })],
             networkCalls := 1 }) := rfl
  refine ⟨by rw [hfirst], ?_, ?_, ?_⟩
  · rw [hfirst]
    have hl : ([(Utils.make_cache_key url cks hdrs,
        ({ ts := t1, html := b1 } : Utils.CacheEntry))]).lookup
          (Utils.make_cache_key url cks hdrs) = some { ts := t1, html := b1 } := by
      simp [List.lookup]
    simp only [Utils.cached_fetch, hl]
    rw [if_pos hts]
  · intro v1 v2 hne h1 h2
    rw [hfirst]
    have hkey := Utils.make_cache_key_cf_inj url cks cks2 hdrs v1 v2 h1 h2 hne
    have hl : ([(Utils.make_cache_key url cks hdrs,
        ({ ts := t1, html := b1 } : Utils.CacheEntry))]).lookup
          (Utils.make_cache_key url cks2 hdrs) = none := by
      have hb : (Utils.make_cache_key url cks2 hdrs ==
          Utils.make_cache_key url cks hdrs) = false :=
        beq_eq_false_iff_ne.mpr (Ne.symm hkey)
      simp [List.lookup, hb]
    simp only [Utils.cached_fetch, hl]
  · intro u1 u2 hne h1 h2
    rw [hfirst]
    have hkey := Utils.make_cache_key_ua_inj url cks hdrs hdrs2 u1 u2 h1 h2 hne
    have hl : ([(Utils.make_cache_key url cks hdrs,
        ({ ts := t1, html := b1 } : Utils.CacheEntry))]).lookup
          (Utils.make_cache_key url cks hdrs2) = none := by
      have hb : (Utils.make_cache_key url cks hdrs2 ==
          Utils.make_cache_key url cks hdrs) = false :=
        beq_eq_false_iff_ne.mpr (Ne.symm hkey)
      simp [List.lookup, hb]
    simp only [Utils.cached_fetch, hl]

/-- Witness for c4_amended at concrete inputs: one fetch for the first
call, a cache hit for the identical second call within the 180s TTL, and
fresh fetches when the cf_clearance value or the User-Agent differs. -/
theorem c4_amended_witness :
    ((Utils.cached_fetch "https://azoramoon.com/series/x/chapter-1" 180
        [("User-Agent", "ua-a")] [("cf_clearance", "c1")] 0 "<html-1>"
        { cache := [], networkCalls := 0 }).2.networkCalls = 1) ∧
    (Utils.cached_fetch "https://azoramoon.com/series/x/chapter-1" 180
        [("User-Agent", "ua-a")] [("cf_clearance", "c1")] 10 "<html-2>"
        (Utils.cached_fetch "https://azoramoon.com/series/x/chapter-1" 180
          [("User-Agent", "ua-a")] [("cf_clearance", "c1")] 0 "<html-1>"
          { cache := [], networkCalls := 0 }).2 =
      ("<html-1>", (Utils.cached_fetch "https://azoramoon.com/series/x/chapter-1" 180
          [("User-Agent", "ua-a")] [("cf_clearance", "c1")] 0 "<html-1>"
          { cache := [], networkCalls := 0 }).2)) ∧
    ((Utils.cached_fetch "https://azoramoon.com/series/x/chapter-1" 180
        [("User-Agent", "ua-a")] [("cf_clearance", "c2")] 10 "<html-2>"
        (Utils.cached_fetch "https://azoramoon.com/series/x/chapter-1" 180
          [("User-Agent", "ua-a")] [("cf_clearance", "c1")] 0 "<html-1>"
          { cache := [], networkCalls := 0 }).2).2.networkCalls = 2) ∧
    ((Utils.cached_fetch "https://azoramoon.com/series/x/chapter-1" 180
        [("User-Agent", "ua-b")] [("cf_clearance", "c1")] 10 "<html-2>"
        (Utils.cached_fetch "https://azoramoon.com/series/x/chapter-1" 180
          [("User-Agent", "ua-a")] [("cf_clearance", "c1")] 0 "<html-1>"
          { cache := [], networkCalls := 0 }).2).2.networkCalls = 2) := by
  have hts : (10 : Int) - 0 < 180 := by decide
  have h := c4_amended "https://azoramoon.com/series/x/chapter-1" 180
    [("User-Agent", "ua-a")] [("User-Agent", "ua-b")]
    [("cf_clearance", "c1")] [("cf_clearance", "c2")]
    "<html-1>" "<html-2>" 0 10 hts
  exact ⟨h.1, h.2.1,
    h.2.2.1 "c1" "c2" (by decide) (by decide) (by decide),
    h.2.2.2 "ua-a" "ua-b" (by decide) (by decide) (by decide)⟩

/-- C5: the Metadata Resolver — "Chapter 10.5" resolves to 10.5 for any
url; a bare series url with trailing "/chapter-7" resolves to 7.0; a
series url without any number resolves to none; and the title patterns
are tried before the url-path patterns (a title hit decides the result
whatever the url).  The Lean embedding is a total function, matching
"never raises for any string inputs". -/
theorem c5_metadata_resolution :
    (∀ url : Option String,
      ChapterScraper.parse_chapter_number (some "Chapter 10.5") url = some (21/2 : ℚ)) ∧
    ChapterScraper.parse_chapter_number none (some "https://x/series/foo/chapter-7") =
      some (7 : ℚ) ∧
    ChapterScraper.parse_chapter_number none (some "https://x/series/foo") = none ∧
    (∀ (t : String) (u : Option String) (n : ℚ),
      ChapterScraper.try_find t = some n →
      ChapterScraper.parse_chapter_number (some t) u = some n) := by
  have hs1 : ChapterScraper.searchP1 "Chapter 10.5".data = some ['1', '0', '.', '5'] := by
    decide
  have hsp : (['1', '0', '.', '5'].span Char.isDigit) = (['1', '0'], ['.', '5']) := by decide
  have hv1 : ChapterScraper.parseFloatToken ['1', '0', '.', '5'] = (21/2 : ℚ) := by
    simp only [ChapterScraper.parseFloatToken, hsp]
    have h10 : ChapterScraper.digitsToNat ['1', '0'] = 10 := by decide
    have h5 : ChapterScraper.digitsToNat ['5'] = 5 := by decide
    rw [h10, h5]
    norm_num
  have ht1 : ChapterScraper.try_find "Chapter 10.5" = some (21/2 : ℚ) := by
    rw [ChapterScraper.try_find, if_neg (by decide), hs1]
    exact congrArg some hv1
  have htitle : ∀ (t : String) (u : Option String) (n : ℚ),
      ChapterScraper.try_find t = some n →
      ChapterScraper.parse_chapter_number (some t) u = some n := by
    intro t u n h
    rw [ChapterScraper.parse_chapter_number.eq_def,
        show Option.getD (some t) "" = t from rfl, h]
  refine ⟨?_, ?_, ?_, ?_⟩
  · intro url
    exact htitle "Chapter 10.5" url (21/2 : ℚ) ht1
  · have hpath : Urllib.path "https://x/series/foo/chapter-7" = "/series/foo/chapter-7" := by
      decide
    have hs2 : ChapterScraper.searchP1 "/series/foo/chapter-7".data = some ['7'] := by decide
    have hv2 : ChapterScraper.parseFloatToken ['7'] = (7 : ℚ) := by
      have hsp2 : (['7'].span Char.isDigit) = (['7'], []) := by decide
      simp only [ChapterScraper.parseFloatToken, hsp2]
      have h7 : ChapterScraper.digitsToNat ['7'] = 7 := by decide
      rw [h7]
      norm_num
    have hempty : ChapterScraper.try_find "" = none := by decide
    have ht2 : ChapterScraper.try_find "/series/foo/chapter-7" = some (7 : ℚ) := by
      rw [ChapterScraper.try_find, if_neg (by decide), hs2]
      exact congrArg some hv2
    rw [ChapterScraper.parse_chapter_number.eq_def,
        show Option.getD (none : Option String) "" = "" from rfl, hempty]
    show (if ("https://x/series/foo/chapter-7" : String) = "" then none
          else ChapterScraper.try_find (Urllib.path "https://x/series/foo/chapter-7")) =
        some (7 : ℚ)
    rw [if_neg (show ¬(("https://x/series/foo/chapter-7" : String) = "") by decide), hpath, ht2]
  · decide
  · intro t u n h
    rw [ChapterScraper.parse_chapter_number.eq_def,
        show Option.getD (some t) "" = t from rfl, h]

/-- Witness for c5_metadata_resolution: the title-first conjunct applied
at a title saying chapter 12 and a url saying chapter 99 — the title
wins. -/
theorem c5_metadata_resolution_witness :
    ChapterScraper.parse_chapter_number (some "Chapter 12")
      (some "https://azoramoon.com/series/foo/chapter-99") = some (12 : ℚ) := by
  have hs : ChapterScraper.searchP1 "Chapter 12".data = some ['1', '2'] := by decide
  have hv : ChapterScraper.parseFloatToken ['1', '2'] = (12 : ℚ) := by
    have hsp : (['1', '2'].span Char.isDigit) = (['1', '2'], []) := by decide
    simp only [ChapterScraper.parseFloatToken, hsp]
    have h12 : ChapterScraper.digitsToNat ['1', '2'] = 12 := by decide
    rw [h12]
    norm_num
  exact c5_metadata_resolution.2.2.2 "Chapter 12"
    (some "https://azoramoon.com/series/foo/chapter-99") 12
    (by rw [ChapterScraper.try_find, if_neg (by decide), hs]
        exact congrArg some hv)

/-- C6 (counterexample): an img element carrying both attributes — the
static markup scan of scraper.py takes the eager `src` value, not the
lazy-load `data-src` value the claim requires (the playwright DOM scan's
attribute mapper behaves the same way). -/
theorem c6_counterexample :
    Scraper.extract_images_from_html
      [{ src := some "https://storage.azoramoon.com/upload/chapter_1/eager.jpg",
         data_src := some "https://storage.azoramoon.com/upload/chapter_1/lazy.jpg" }] =
      ["https://storage.azoramoon.com/upload/chapter_1/eager.jpg"] ∧
    PlaywrightWorker.dom_attr
      { src := some "https://storage.azoramoon.com/upload/chapter_1/eager.jpg",
        data_src := some "https://storage.azoramoon.com/upload/chapter_1/lazy.jpg" } =
      "https://storage.azoramoon.com/upload/chapter_1/eager.jpg" ∧
    ("https://storage.azoramoon.com/upload/chapter_1/eager.jpg" : String) ≠
      "https://storage.azoramoon.com/upload/chapter_1/lazy.jpg" := by
  refine ⟨by decide, by decide, by decide⟩

/-- C6 (amended): when both attributes are present and non-empty, the
static markup scan of scraper.py and the playwright DOM scan prefer the
eager `src` attribute and use `data-src` only as a fallback; only
chapter_extractor.py's `extract_wp_images` prefers the lazy-load
`data-src` attribute. -/
theorem c6_amended (e l : String) (he : e ≠ "") (hl : l ≠ "") :
    Scraper.attr_of_img { src := some e, data_src := some l } = e ∧
    PlaywrightWorker.dom_attr { src := some e, data_src := some l } = e ∧
    ChapterExtractor.attr_of_img { src := some e, data_src := some l } = l := by
  refine ⟨?_, ?_, ?_⟩
  · simp [Scraper.attr_of_img, he]
  · simp [PlaywrightWorker.dom_attr, he]
  · simp [ChapterExtractor.attr_of_img, hl]

/-- Witness for c6_amended at two concrete attribute values. -/
theorem c6_amended_witness :
    Scraper.attr_of_img { src := some "eager.jpg", data_src := some "lazy.jpg" } = "eager.jpg" ∧
    PlaywrightWorker.dom_attr { src := some "eager.jpg", data_src := some "lazy.jpg" } = "eager.jpg" ∧
    ChapterExtractor.attr_of_img { src := some "eager.jpg", data_src := some "lazy.jpg" } = "lazy.jpg" :=
  c6_amended "eager.jpg" "lazy.jpg" (by decide) (by decide)

/-- C7 (counterexample): a root-relative candidate scanned from a
document hosted at example.org — the static markup scan resolves it
against the constant BASE_HOST "https://azoramoon.com" (the function has
no access to the document's host), while the playwright normalizer
resolves it against the document's own host; the two outputs differ, so
the static scan does not use "the requested document's own scheme/host". -/
theorem c7_counterexample :
    Scraper.normalize_src "/upload/chapter_2/01.jpg" =
      "https://azoramoon.com/upload/chapter_2/01.jpg" ∧
    PlaywrightWorker.normalize_url "/upload/chapter_2/01.jpg"
        "https://example.org/series/y/chapter-2" =
      "https://example.org/upload/chapter_2/01.jpg" ∧
    ("https://azoramoon.com/upload/chapter_2/01.jpg" : String) ≠
      "https://example.org/upload/chapter_2/01.jpg" := by
  refine ⟨by decide, by decide, by decide⟩

/-- C7 (amended): protocol-relative candidates get "https:" prepended in
both scanners and absolute candidates pass through unchanged, as
claimed; but root-relative candidates are resolved against the
document's own scheme/host only by the playwright worker's
`normalize_url` — the static markup scan prepends the fixed constant
`BASE_HOST` instead (and chapter_extractor.py has no root-relative
branch at all). -/
theorem c7_amended (u base : String) :
    (strStartsWith u "//" = true →
      Scraper.normalize_src u = "https:" ++ u ∧
      PlaywrightWorker.normalize_url u base = "https:" ++ u) ∧
    (strStartsWith u "//" = false → strStartsWith u "/" = true →
      Scraper.normalize_src u = Scraper.BASE_HOST ++ u ∧
      PlaywrightWorker.normalize_url u base =
        Urllib.scheme base ++ "://" ++ Urllib.netloc base ++ u) ∧
    (strStartsWith u "/" = false →
      Scraper.normalize_src u = u ∧ PlaywrightWorker.normalize_url u base = u) := by
  refine ⟨?_, ?_, ?_⟩
  · intro h
    have hne : u ≠ "" := by
      intro he
      subst he
      exact absurd h (by decide)
    exact ⟨by simp [Scraper.normalize_src, h],
           by simp [PlaywrightWorker.normalize_url, hne, h]⟩
  · intro h2 h1
    have hne : u ≠ "" := by
      intro he
      subst he
      exact absurd h1 (by decide)
    exact ⟨by simp [Scraper.normalize_src, h1, h2],
           by simp [PlaywrightWorker.normalize_url, hne, h1, h2]⟩
  · intro h
    have h2 : strStartsWith u "//" = false := by
      cases hx : strStartsWith u "//"
      · rfl
      · have := listPrefixB_of_two '/' u.data hx
        rw [show listPrefixB ['/'] u.data = strStartsWith u "/" from rfl, h] at this
        exact absurd this (by decide)
    by_cases hne : u = ""
    · subst hne
      exact ⟨by decide, by simp [PlaywrightWorker.normalize_url]⟩
    · exact ⟨by simp [Scraper.normalize_src, h, h2],
             by simp [PlaywrightWorker.normalize_url, hne, h, h2]⟩

/-- Witness for c7_amended: a protocol-relative, a root-relative and an
absolute candidate, the latter two against a document at example.org. -/
theorem c7_amended_witness :
    (Scraper.normalize_src "//cdn.site/a.jpg" = "https:" ++ "//cdn.site/a.jpg" ∧
     PlaywrightWorker.normalize_url "//cdn.site/a.jpg" "https://example.org/c" =
       "https:" ++ "//cdn.site/a.jpg") ∧
    (Scraper.normalize_src "/a.jpg" = Scraper.BASE_HOST ++ "/a.jpg" ∧
     PlaywrightWorker.normalize_url "/a.jpg" "https://example.org/c" =
       Urllib.scheme "https://example.org/c" ++ "://" ++
         Urllib.netloc "https://example.org/c" ++ "/a.jpg") ∧
    (Scraper.normalize_src "https://h/a.jpg" = "https://h/a.jpg" ∧
     PlaywrightWorker.normalize_url "https://h/a.jpg" "https://example.org/c" =
       "https://h/a.jpg") :=
  ⟨(c7_amended "//cdn.site/a.jpg" "https://example.org/c").1 (by decide),
   (c7_amended "/a.jpg" "https://example.org/c").2.1 (by decide) (by decide),
   (c7_amended "https://h/a.jpg" "https://example.org/c").2.2 (by decide)⟩

namespace ChapterScraper

theorem pw_merge_error_note (r : ChapterResult) (e : String) :
    (pw_merge r (.error e)).note =
      some ((if (r.note.getD "") ≠ "" then (r.note.getD "") ++ " | " else "") ++
        ("playwright_error: " ++ e)) := rfl

end ChapterScraper

/-- C8: extract_chapter_content always returns a result dict (the model
is a total function — the source catches both strategy exceptions);
whenever the final images list is empty the note is set and non-empty; a
static-pass exception is recorded at the head of the note; and a
playwright exception, when that pass ran, is recorded at the tail of the
note.  Empty-asset results are thus plain return values, distinguished
from raised exceptions. -/
theorem c8_error_downgrade (url : String) (pp : Bool) (env : ChapterScraper.Env) :
    ((ChapterScraper.extract_chapter_content url pp env).1.images = [] →
      ∃ s, (ChapterScraper.extract_chapter_content url pp env).1.note = some s ∧ s ≠ "") ∧
    (∀ e, env.fast = .error e →
      ∃ rest, (ChapterScraper.extract_chapter_content url pp env).1.note =
        some (("fast_scrape_error: " ++ e) ++ rest)) ∧
    (∀ e, env.pw = .error e →
      ((ChapterScraper.fast_pass url env.fast).images.isEmpty || pp) = true →
      ∃ pre, (ChapterScraper.extract_chapter_content url pp env).1.note =
        some (pre ++ ("playwright_error: " ++ e))) := by
  refine ⟨?_, ?_, ?_⟩
  · intro h
    rw [ChapterScraper.ecc_fst, ChapterScraper.finalize_images] at h
    rw [ChapterScraper.ecc_fst, ChapterScraper.finalize_note]
    have hlen : (ChapterScraper.dedupe_preserve_order
        (if ((ChapterScraper.fast_pass url env.fast).images.isEmpty || pp) = true then
          ChapterScraper.pw_merge (ChapterScraper.fast_pass url env.fast) env.pw
         else ChapterScraper.fast_pass url env.fast).images).length = 0 := by
      rw [h]
      rfl
    by_cases hn : ((if ((ChapterScraper.fast_pass url env.fast).images.isEmpty || pp) = true then
          ChapterScraper.pw_merge (ChapterScraper.fast_pass url env.fast) env.pw
         else ChapterScraper.fast_pass url env.fast).note.getD "") = ""
    · rw [if_pos ⟨hlen, hn⟩]
      exact ⟨_, rfl, by decide⟩
    · rw [if_neg (fun hc => hn hc.2)]
      cases hnote : (if ((ChapterScraper.fast_pass url env.fast).images.isEmpty || pp) = true then
          ChapterScraper.pw_merge (ChapterScraper.fast_pass url env.fast) env.pw
         else ChapterScraper.fast_pass url env.fast).note with
      | none =>
        rw [hnote] at hn
        exact absurd rfl hn
      | some s =>
        rw [hnote] at hn
        exact ⟨s, rfl, by simpa using hn⟩
  · intro e hfe
    rw [ChapterScraper.ecc_fst, ChapterScraper.finalize_note, hfe]
    rw [if_pos (show (((ChapterScraper.fast_pass url (.error e)).images.isEmpty || pp) = true)
      from rfl)]
    cases hpw : env.pw with
    | error e2 =>
      have hne : ("fast_scrape_error: " ++ e) ≠ "" :=
        append_ne_empty_left _ _ (by decide)
      have hnote : (ChapterScraper.pw_merge (ChapterScraper.fast_pass url (.error e))
          (Except.error e2)).note =
          some ((("fast_scrape_error: " ++ e) ++ " | ") ++ ("playwright_error: " ++ e2)) := by
        rw [ChapterScraper.pw_merge_error_note,
            show ((ChapterScraper.fast_pass url (.error e)).note.getD "") =
              "fast_scrape_error: " ++ e from rfl,
            if_pos hne]
      rw [hnote]
      have hsne : (("fast_scrape_error: " ++ e) ++ " | ") ++ ("playwright_error: " ++ e2) ≠ "" :=
        append_ne_empty_right _ _ (append_ne_empty_left _ _ (by decide))
      rw [show ((some ((("fast_scrape_error: " ++ e) ++ " | ") ++
          ("playwright_error: " ++ e2)) : Option String).getD "") =
          (("fast_scrape_error: " ++ e) ++ " | ") ++ ("playwright_error: " ++ e2) from rfl]
      rw [if_neg (fun hc => absurd hc.2 hsne)]
      exact ⟨" | " ++ ("playwright_error: " ++ e2), by rw [String.append_assoc]⟩
    | ok pw =>
      have hnote : (ChapterScraper.pw_merge (ChapterScraper.fast_pass url (.error e))
          (Except.ok pw)).note = some ("fast_scrape_error: " ++ e) := by
        rw [ChapterScraper.pw_merge_ok_note, ChapterScraper.fast_pass_error_note]
      rw [hnote]
      have hne : ("fast_scrape_error: " ++ e) ≠ "" :=
        append_ne_empty_left _ _ (by decide)
      rw [show ((some ("fast_scrape_error: " ++ e) : Option String).getD "") =
          "fast_scrape_error: " ++ e from rfl]
      rw [if_neg (fun hc => absurd hc.2 hne)]
      exact ⟨"", by rw [String.append_empty]⟩
  · intro e hpw hinv
    rw [ChapterScraper.ecc_fst, ChapterScraper.finalize_note, hpw, if_pos hinv]
    rw [ChapterScraper.pw_merge_error_note]
    have hsne : ((if ((ChapterScraper.fast_pass url env.fast).note.getD "") ≠ "" then
          ((ChapterScraper.fast_pass url env.fast).note.getD "") ++ " | " else "") ++
        ("playwright_error: " ++ e)) ≠ "" :=
      append_ne_empty_right _ _ (append_ne_empty_left _ _ (by decide))
    rw [show ((some ((if ((ChapterScraper.fast_pass url env.fast).note.getD "") ≠ "" then
          ((ChapterScraper.fast_pass url env.fast).note.getD "") ++ " | " else "") ++
        ("playwright_error: " ++ e)) : Option String).getD "") =
        ((if ((ChapterScraper.fast_pass url env.fast).note.getD "") ≠ "" then
          ((ChapterScraper.fast_pass url env.fast).note.getD "") ++ " | " else "") ++
        ("playwright_error: " ++ e)) from rfl]
    rw [if_neg (fun hc => absurd hc.2 hsne)]
    exact ⟨_, rfl⟩

/-- Witness for c8_error_downgrade: both strategies raise; the result is
still a plain dict whose note records the static failure first and the
playwright failure last, and the empty images list comes with a
non-empty note. -/
theorem c8_error_downgrade_witness :
    (∃ s, (ChapterScraper.extract_chapter_content "https://azoramoon.com/series/x/chapter-9" false
      { fast := .error "timeout", pw := .error "launch failed" }).1.note = some s ∧ s ≠ "") ∧
    (∃ rest, (ChapterScraper.extract_chapter_content "https://azoramoon.com/series/x/chapter-9" false
      { fast := .error "timeout", pw := .error "launch failed" }).1.note =
        some (("fast_scrape_error: " ++ "timeout") ++ rest)) ∧
    (∃ pre, (ChapterScraper.extract_chapter_content "https://azoramoon.com/series/x/chapter-9" false
      { fast := .error "timeout", pw := .error "launch failed" }).1.note =
        some (pre ++ ("playwright_error: " ++ "launch failed"))) := by
  have h := c8_error_downgrade "https://azoramoon.com/series/x/chapter-9" false
    { fast := .error "timeout", pw := .error "launch failed" }
  exact ⟨h.1 (by decide), h.2.1 "timeout" rfl, h.2.2 "launch failed" rfl (by decide)⟩

namespace Scraper

theorem extract_images_success_count (u : String) (resp : Except String HttpResponse)
    (parse : String → List Img) (r : ExtractImagesSuccess) (n : Nat)
    (hsucc : extract_images u resp parse = (.success r, n)) :
    r.count = r.images.length := by
  rw [extract_images.eq_def] at hsucc
  rcases hf : fetch_html resp with ⟨fr, m⟩
  rw [hf] at hsucc
  cases fr with
  | ok html =>
    have h2 : ((ExtractImagesResult.success
        { url := u, images := extract_images_from_html (parse html),
          count := (extract_images_from_html (parse html)).length }, m) :
        ExtractImagesResult × Nat) = (.success r, n) := hsucc
    have h3 := congrArg Prod.fst h2
    injection h3 with h4
    rw [← h4]
  | badStatus code snippet =>
    have h2 : ((ExtractImagesResult.fetchFailed (.badStatus code snippet), m) :
        ExtractImagesResult × Nat) = (.success r, n) := hsucc
    exact ExtractImagesResult.noConfusion (congrArg Prod.fst h2)
  | requestError d =>
    have h2 : ((ExtractImagesResult.fetchFailed (.requestError d), m) :
        ExtractImagesResult × Nat) = (.success r, n) := hsucc
    exact ExtractImagesResult.noConfusion (congrArg Prod.fst h2)

end Scraper

namespace PlaywrightWorker

theorem worker_count_eq_length (u : String) (penv : PwEnv) :
    (scrape_chapter_with_playwright u penv).count =
      (scrape_chapter_with_playwright u penv).images.length := by
  simp only [scrape_chapter_with_playwright]
  cases hs : penv.setup with
  | error e => rfl
  | ok _ =>
    cases hd : penv.domAttrs with
    | error e => rfl
    | ok attrs =>
      cases hc : penv.closeStep with
      | error e => rfl
      | ok _ => rfl

end PlaywrightWorker

/-- C9: the "count" field equals the length of the "images" list in the
results of extract_chapter_content, of scraper.extract_images on fetch
success, and of scrape_chapter_with_playwright. -/
theorem c9_count_eq_length (url : String) (pp : Bool) (env : ChapterScraper.Env)
    (u2 : String) (resp : Except String Scraper.HttpResponse) (parse : String → List Img)
    (r : Scraper.ExtractImagesSuccess) (n : Nat)
    (hsucc : Scraper.extract_images u2 resp parse = (.success r, n))
    (u3 : String) (penv : PlaywrightWorker.PwEnv) :
    (ChapterScraper.extract_chapter_content url pp env).1.count =
      (ChapterScraper.extract_chapter_content url pp env).1.images.length ∧
    r.count = r.images.length ∧
    (PlaywrightWorker.scrape_chapter_with_playwright u3 penv).count =
      (PlaywrightWorker.scrape_chapter_with_playwright u3 penv).images.length := by
  refine ⟨?_, ?_, ?_⟩
  · rw [ChapterScraper.ecc_fst, ChapterScraper.finalize_count, ChapterScraper.finalize_images]
  · exact Scraper.extract_images_success_count u2 resp parse r n hsucc
  · exact PlaywrightWorker.worker_count_eq_length u3 penv

/-- Witness for c9_count_eq_length at concrete inputs: a successful
static extraction over an empty document, a browser environment whose
steps all succeed trivially, and a chapter extraction with a static hit. -/
theorem c9_count_eq_length_witness :
    (ChapterScraper.extract_chapter_content "https://azoramoon.com/series/x/chapter-5" false
      { fast := .ok { images := some ["https://storage.azoramoon.com/upload/chapter_5/01.jpg"] },
        pw := .error "unused" }).1.count =
      (ChapterScraper.extract_chapter_content "https://azoramoon.com/series/x/chapter-5" false
        { fast := .ok { images := some ["https://storage.azoramoon.com/upload/chapter_5/01.jpg"] },
          pw := .error "unused" }).1.images.length ∧
    ({ url := "https://azoramoon.com/series/x/chapter-5", images := [], count := 0 } :
      Scraper.ExtractImagesSuccess).count =
      ({ url := "https://azoramoon.com/series/x/chapter-5", images := [], count := 0 } :
        Scraper.ExtractImagesSuccess).images.length ∧
    (PlaywrightWorker.scrape_chapter_with_playwright "https://azoramoon.com/series/x/chapter-5"
      { setup := .ok (), domAttrs := .ok [], nextDataText := .ok none, nextDataJson := none,
        buildId := .ok none, nextJsonResp := .ok none, closeStep := .ok () }).count =
      (PlaywrightWorker.scrape_chapter_with_playwright "https://azoramoon.com/series/x/chapter-5"
        { setup := .ok (), domAttrs := .ok [], nextDataText := .ok none, nextDataJson := none,
          buildId := .ok none, nextJsonResp := .ok none, closeStep := .ok () }).images.length :=
  c9_count_eq_length "https://azoramoon.com/series/x/chapter-5" false
    { fast := .ok { images := some ["https://storage.azoramoon.com/upload/chapter_5/01.jpg"] },
      pw := .error "unused" }
    "https://azoramoon.com/series/x/chapter-5" (.ok { status := 200, body := "<html></html>" })
    (fun _ => []) { url := "https://azoramoon.com/series/x/chapter-5", images := [], count := 0 } 1
    rfl
    "https://azoramoon.com/series/x/chapter-5"
    { setup := .ok (), domAttrs := .ok [], nextDataText := .ok none, nextDataJson := none,
      buildId := .ok none, nextJsonResp := .ok none, closeStep := .ok () }

/-- C10: the result title of extract_chapter_content is computed from the
request URL alone — the last path segment with '-' and '_' replaced by
spaces — never from the fetched document (the strategy outcomes env and
the prefer flag do not appear on the right-hand side); and whenever the
URL's final path segment is non-empty the title is non-none, images or
no images. -/
theorem c10_title_from_url_only (url : String) (pp : Bool) (env : ChapterScraper.Env) :
    (ChapterScraper.extract_chapter_content url pp env).1.title =
      ChapterScraper.title_from_url url ∧
    (ChapterScraper.last_path_segment url ≠ "" →
      (ChapterScraper.extract_chapter_content url pp env).1.title =
        some (charReplace (charReplace (ChapterScraper.last_path_segment url) '-' ' ') '_' ' ')) := by
  have h1 : (ChapterScraper.extract_chapter_content url pp env).1.title =
      ChapterScraper.title_from_url url := by
    rw [ChapterScraper.ecc_fst, ChapterScraper.finalize_title]
  refine ⟨h1, ?_⟩
  intro h
  rw [h1]
  simp only [ChapterScraper.title_from_url]
  rw [if_neg h]

/-- Witness for c10_title_from_url_only: a URL whose final segment is
"chapter-295" yields the title "chapter 295" even though extraction found
zero images (the static pass returns an error dict and the browser pass
raises). -/
theorem c10_title_from_url_only_witness :
    (ChapterScraper.extract_chapter_content "https://azoramoon.com/series/nano-machine/chapter-295"
      false { fast := .ok { images := none }, pw := .error "launch failed" }).1.title =
      some (charReplace (charReplace
        (ChapterScraper.last_path_segment "https://azoramoon.com/series/nano-machine/chapter-295")
        '-' ' ') '_' ' ') :=
  (c10_title_from_url_only "https://azoramoon.com/series/nano-machine/chapter-295" false
    { fast := .ok { images := none }, pw := .error "launch failed" }).2 (by decide)
